import Mathlib

/-!
Verification development for the shopify-customizer backend.

The definitions below are a shallow embedding of the order-to-production
pipeline implemented in the repository's main server file: the webhook
candidate extraction, the customization interpretation inside
`generateProductionFile`, the production-record assembly, the status
lifecycle of order-queue entries, and the lazy default-catalog creation
of the settings route.  JavaScript objects holding line-item properties
are modelled as association lists in write order with last-write-wins
lookup; JavaScript string truthiness (empty string is falsy) is modelled
explicitly at each use site.
-/

namespace ShopifyCustomizer

/-- Character-level whitespace test used by the model of JavaScript
`String.prototype.trim`. -/
def isWsChar (c : Char) : Bool :=
  c = ' ' || c = '\t' || c = '\n' || c = '\r'

/-- Model of JavaScript `s.trim()`: drop whitespace from both ends.
Defined by structural recursion over the character list so that it
reduces in the kernel. -/
def jsTrim (s : String) : String :=
  String.mk (((s.data.dropWhile isWsChar).reverse.dropWhile isWsChar).reverse)

/-- Auxiliary for `jsSplitComma`: walks the character list, cutting at
each comma. -/
def jsSplitCommaAux : List Char → List Char → List String
  | [], acc => [String.mk acc.reverse]
  | c :: cs, acc =>
    if c = ',' then String.mk acc.reverse :: jsSplitCommaAux cs []
    else jsSplitCommaAux cs (c :: acc)

/-- Model of JavaScript `s.split(',')` (single-character separator).
In particular the split of the empty string is `[""]`, as in JavaScript. -/
def jsSplitComma (s : String) : List String :=
  jsSplitCommaAux s.data []

/-- Model of JavaScript `s.toUpperCase()` for the ASCII range. -/
def jsToUpper (s : String) : String :=
  String.mk (s.data.map Char.toUpper)

/-- A line-item property bag: `properties` entries `{name, value}` in
their original order.  The JavaScript code folds these into an object
(`props[prop.name] = prop.value`), which is last-write-wins; the lookup
`getProp` below reproduces exactly that semantics. -/
abbrev Props := List (String × String)

/-- Lookup in a property bag with last-write-wins semantics, mirroring
assignment into a JavaScript object followed by property access.
Returns `none` when the key was never written. -/
def getProp (props : Props) (key : String) : Option String :=
  props.foldl (fun acc entry => if entry.1 == key then some entry.2 else acc) none

/-- Model of the JavaScript expression `x || d` for `x` an (optional)
string: an absent or empty string is falsy and yields the default. -/
def jsOr (x : Option String) (d : String) : String :=
  match x with
  | some s => if s == "" then d else s
  | none => d

/-- JavaScript truthiness of an optional string property value. -/
def truthy (x : Option String) : Bool :=
  match x with
  | some s => s != ""
  | none => false

/-- Print-zone geometry, the `coordinates` subdocument of a placement
(`rotation` is absent for chest/back in the default catalog). -/
structure Coordinates where
  x : Int
  y : Int
  maxWidth : Int
  maxHeight : Int
  rotation : Option Int
deriving Repr, DecidableEq

/-- A placement entry of the shop settings (`placements` array). -/
structure Placement where
  id : Nat
  name : String
  code : String
  price : Int
  coordinates : Coordinates
deriving Repr, DecidableEq

/-- A font entry of the shop settings (`fonts` array). -/
structure Font where
  id : Nat
  name : String
  code : String
  price : Int
  fontFile : String
  displayName : String
deriving Repr, DecidableEq

/-- A text-option entry of the shop settings (`textOptions` array). -/
structure TextOption where
  id : Nat
  name : String
  maxLength : Nat
  basePrice : Int
deriving Repr, DecidableEq

/-- The per-shop settings document (`GlobalSettings` model). -/
structure GlobalSettings where
  shopDomain : String
  textOptions : List TextOption
  placements : List Placement
  fonts : List Font
deriving Repr, DecidableEq

/-- The default settings document created by `GET /api/settings/:shop`
when no document exists for the shop, copied field by field from the
source. -/
def defaultSettings (shop : String) : GlobalSettings :=
  { shopDomain := shop
    textOptions :=
      [ { id := 1, name := "Player Name", maxLength := 15, basePrice := 0 }
      , { id := 2, name := "Custom Text", maxLength := 25, basePrice := 0 }
      , { id := 3, name := "Jersey Number", maxLength := 3, basePrice := 0 } ]
    placements :=
      [ { id := 1, name := "Chest", code := "chest", price := 5
          coordinates := { x := 360, y := 250, maxWidth := 200, maxHeight := 60, rotation := none } }
      , { id := 2, name := "Back", code := "back", price := 5
          coordinates := { x := 360, y := 300, maxWidth := 280, maxHeight := 100, rotation := none } }
      , { id := 3, name := "Left Sleeve", code := "left_sleeve", price := 7
          coordinates := { x := 150, y := 320, maxWidth := 80, maxHeight := 40, rotation := some (-90) } }
      , { id := 4, name := "Right Sleeve", code := "right_sleeve", price := 7
          coordinates := { x := 150, y := 320, maxWidth := 80, maxHeight := 40, rotation := some (-90) } } ]
    fonts :=
      [ { id := 1, name := "Standard", code := "standard", price := 0, fontFile := "Arial", displayName := "Standard Font (Free)" }
      , { id := 2, name := "Varsity", code := "varsity", price := 3, fontFile := "Impact", displayName := "Varsity Style (+$3)" }
      , { id := 3, name := "Script", code := "script", price := 5, fontFile := "BrushScriptMT", displayName := "Script Style (+$5)" }
      , { id := 4, name := "Modern", code := "modern", price := 3, fontFile := "HelveticaNeue-Light", displayName := "Modern Style (+$3)" } ] }

/-- State-passing model of `GET /api/settings/:shop`: read the stored
document for the shop; if none exists, create the default document,
persist it and return it; otherwise return the stored one unchanged.
The second component of the result is the store content afterwards. -/
def resolveSettings (shop : String) (stored : Option GlobalSettings) :
    GlobalSettings × Option GlobalSettings :=
  match stored with
  | some s => (s, some s)
  | none => (defaultSettings shop, some (defaultSettings shop))

/-- A customization candidate pushed onto `customizedItems` by the
order-created webhook handler. -/
structure ItemCandidate where
  lineItemId : Nat
  productId : Nat
  variantId : Nat
  sku : String
  title : String
  quantity : Nat
  properties : Props
deriving Repr, DecidableEq

/-- A raw order line item as delivered by the webhook payload. -/
structure LineItem where
  id : Nat
  product_id : Nat
  variant_id : Nat
  sku : String
  title : String
  quantity : Nat
  properties : Props
deriving Repr, DecidableEq

/-- The candidate test of the webhook handler: the property map holds a
truthy (non-empty) value under one of the four trigger keys. -/
def hasCustomizationTrigger (props : Props) : Bool :=
  truthy (getProp props "Custom Text") ||
  truthy (getProp props "Player Name") ||
  truthy (getProp props "Jersey Number") ||
  truthy (getProp props "Custom Message")

/-- The candidate record built by the webhook handler for a qualifying
line item. -/
def mkCandidate (item : LineItem) : ItemCandidate :=
  { lineItemId := item.id
    productId := item.product_id
    variantId := item.variant_id
    sku := item.sku
    title := item.title
    quantity := item.quantity
    properties := item.properties }

/-- The webhook handler's candidate-extraction loop: for each line item
with at least one property, build the property map and push a candidate
when a trigger key holds a non-empty value. -/
def extractCandidates (lineItems : List LineItem) : List ItemCandidate :=
  lineItems.foldl
    (fun acc item =>
      if item.properties.length > 0 && hasCustomizationTrigger item.properties then
        acc ++ [mkCandidate item]
      else acc)
    []

/-- The customization text chosen inside `generateProductionFile`:
`props[Custom Text] || props[Player Name] || props[Jersey Number] || props[Custom Message] || ''`. -/
def customTextOf (props : Props) : String :=
  jsOr (getProp props "Custom Text")
    (jsOr (getProp props "Player Name")
      (jsOr (getProp props "Jersey Number")
        (jsOr (getProp props "Custom Message") "")))

/-- The requested placement names:
`props[Placement] ? props[Placement].split(',').map(p => p.trim()) : []`. -/
def placementNamesOf (props : Props) : List String :=
  match getProp props "Placement" with
  | some v => if v == "" then [] else (jsSplitComma v).map jsTrim
  | none => []

/-- The font display label: `props[Font Style] || 'Standard Font (Free)'`. -/
def fontDisplayOf (props : Props) : String :=
  jsOr (getProp props "Font Style") "Standard Font (Free)"

/-- The font resolution of `generateProductionFile`:
`settings?.fonts.find(f => f.displayName === fontDisplay) || settings?.fonts[0]`. -/
def resolveFont (settings : Option GlobalSettings) (props : Props) : Option Font :=
  match settings with
  | none => none
  | some s =>
    match s.fonts.find? (fun f => f.displayName == fontDisplayOf props) with
    | some f => some f
    | none => s.fonts.head?

/-- The font code written into an instruction: `font?.code || 'standard'`. -/
def fontCodeOf (font : Option Font) : String :=
  match font with
  | some f => if f.code == "" then "standard" else f.code
  | none => "standard"

/-- The placement lookup of `generateProductionFile`:
`settings?.placements.find(p => p.name === placementName)`. -/
def findPlacement (settings : Option GlobalSettings) (name : String) : Option Placement :=
  match settings with
  | none => none
  | some s => s.placements.find? (fun p => p.name == name)

/-- One fully-resolved customization instruction pushed onto the
`customizations` array. -/
structure Customization where
  type : String
  value : String
  placement : String
  font : String
  color : String
  coordinates : Coordinates
deriving Repr, DecidableEq

/-- The per-item interpretation loop of `generateProductionFile`: choose
the text, split the placements, resolve the font once, then for each
requested placement name push one instruction when the catalog has a
placement of exactly that name. -/
def interpretCustomizations (settings : Option GlobalSettings) (item : ItemCandidate) :
    List Customization :=
  let props := item.properties
  let placements := placementNamesOf props
  let customText := customTextOf props
  if customText ≠ "" ∧ placements ≠ [] then
    let fontCode := fontCodeOf (resolveFont settings props)
    placements.foldl
      (fun acc placementName =>
        match findPlacement settings placementName with
        | some placement =>
          acc ++ [{ type := "text"
                    value := jsToUpper customText
                    placement := placement.code
                    font := fontCode
                    color := "white"
                    coordinates := placement.coordinates }]
        | none => acc)
      []
  else []

/-- The customer subdocument stored in `orderData`. -/
structure Customer where
  email : String
  name : String
deriving Repr, DecidableEq

/-- The `orderData` summary stored on a queue entry. -/
structure OrderData where
  customer : Customer
  createdAt : String
deriving Repr, DecidableEq

/-- An order-queue document (`OrderQueue` model).  The schema's `status`
field is a string drawn from `statusEnumValues`. -/
structure QueueEntry where
  shopDomain : String
  orderId : String
  orderNumber : String
  orderData : OrderData
  items : List ItemCandidate
  status : String
  processedAt : Option String
  error : Option String
  createdAt : String
deriving Repr, DecidableEq

/-- The `enum` of the order-queue schema's `status` field. -/
def statusEnumValues : List String :=
  ["pending", "processing", "completed", "error"]

/-- A production line item pushed onto `productionData.line_items`. -/
structure ProductionLineItem where
  id : Nat
  product_id : Nat
  variant_id : Nat
  sku : String
  title : String
  quantity : Nat
  customizations : List Customization
deriving Repr, DecidableEq

/-- The production record assembled by `generateProductionFile`. -/
structure ProductionData where
  order_id : String
  order_number : String
  created_at : String
  customer : Customer
  line_items : List ProductionLineItem
deriving Repr, DecidableEq

/-- The record-assembly part of `generateProductionFile`: the header
fields come from the queue entry, `created_at` is the wall-clock reading
taken when the function runs (`new Date().toISOString()`), and each
candidate whose interpretation is non-empty contributes one line item. -/
def buildProductionData (settings : Option GlobalSettings) (q : QueueEntry) (now : String) :
    ProductionData :=
  { order_id := q.orderId
    order_number := q.orderNumber
    created_at := now
    customer := q.orderData.customer
    line_items :=
      q.items.foldl
        (fun acc item =>
          let customizations := interpretCustomizations settings item
          if customizations.length > 0 then
            acc ++ [{ id := item.lineItemId
                      product_id := item.productId
                      variant_id := item.variantId
                      sku := item.sku
                      title := item.title
                      quantity := item.quantity
                      customizations := customizations }]
          else acc)
        [] }

/-- Outcomes of the effectful collaborators touched by
`generateProductionFile`: the settings lookup (which may reject, and may
find no document), the two `save()` calls, and the wall clock.  An
`Except.error` models a rejected promise, i.e. a thrown exception. -/
structure CompileEnv where
  settingsResult : Except String (Option GlobalSettings)
  saveCompleted : Except String Unit
  saveError : Except String Unit
  now : String

/-- The `catch` block of `generateProductionFile`: set the entry's
status to `error`, store the message, and save; a failure of this save
itself propagates to the caller. -/
def catchSave (env : CompileEnv) (entry : QueueEntry) (msg : String) :
    Except String (QueueEntry × Option ProductionData) :=
  match env.saveError with
  | Except.ok _ => Except.ok ({ entry with status := "error", error := some msg }, none)
  | Except.error e => Except.error e

/-- `generateProductionFile`: look up the settings, assemble the
production data, mark the entry completed and save; any failure in the
`try` block flows into `catchSave` applied to the entry as mutated so
far.  A normal return carries the final entry state and, on the success
path, the production data. -/
def generateProductionFile (env : CompileEnv) (q : QueueEntry) :
    Except String (QueueEntry × Option ProductionData) :=
  match env.settingsResult with
  | Except.error e => catchSave env q e
  | Except.ok settings =>
    let productionData := buildProductionData settings q env.now
    let completed := { q with status := "completed", processedAt := some env.now }
    match env.saveCompleted with
    | Except.error e => catchSave env completed e
    | Except.ok _ => Except.ok (completed, some productionData)

/-- A raw order payload as read by the webhook handler. -/
structure Order where
  id : Nat
  name : String
  email : String
  customer_first : Option String
  customer_last : Option String
  created_at : String
  line_items : List LineItem
deriving Repr, DecidableEq

/-- The queue entry created by the webhook handler for an order with at
least one candidate: status starts at `pending`, the customer name is
`first + ' ' + last` with absent parts replaced by the empty string and
the whole trimmed. -/
def enqueueEntry (shop : String) (order : Order) (now : String) : QueueEntry :=
  { shopDomain := shop
    orderId := toString order.id
    orderNumber := order.name
    orderData :=
      { customer :=
          { email := order.email
            name := jsTrim (jsOr order.customer_first "" ++ " " ++ jsOr order.customer_last "") }
        createdAt := order.created_at }
    items := extractCandidates order.line_items
    status := "pending"
    processedAt := none
    error := none
    createdAt := now }

/-- The order-created webhook handler after signature verification:
extract the candidates; when at least one exists, create the queue entry
and run `generateProductionFile` on it, answering 500 only when that
call itself rejects; otherwise acknowledge with 200. -/
def processOrderWebhook (env : CompileEnv) (shop : String) (order : Order) :
    Nat × Option (QueueEntry × Option ProductionData) :=
  let customizedItems := extractCandidates order.line_items
  if customizedItems.length > 0 then
    match generateProductionFile env (enqueueEntry shop order env.now) with
    | Except.ok r => (200, some r)
    | Except.error _ => (500, none)
  else (200, none)

/-- Queue entries reachable through the implementation's operations: an
entry freshly created by the webhook handler, or the entry state left by
a completed run of `generateProductionFile` on a reachable entry. -/
inductive ReachableEntry : QueueEntry → Prop where
  | created (shop : String) (order : Order) (now : String)
      (hcand : extractCandidates order.line_items ≠ []) :
      ReachableEntry (enqueueEntry shop order now)
  | processed (env : CompileEnv) (q qq : QueueEntry) (pdOpt : Option ProductionData)
      (hq : ReachableEntry q)
      (h : generateProductionFile env q = Except.ok (qq, pdOpt)) :
      ReachableEntry qq

/-- The font-resolution rule exactly as the specification words it for
claim comparison: the display label is `properties[Font Style]`,
defaulting to the standard label only when the key is absent; the
matching font's code is emitted, falling back to the first catalog font,
and to the literal `standard` only when the catalog has zero fonts. -/
def claimedFontCode (s : GlobalSettings) (props : Props) : String :=
  let label := (getProp props "Font Style").getD "Standard Font (Free)"
  match s.fonts.find? (fun f => f.displayName == label) with
  | some f => f.code
  | none =>
    match s.fonts.head? with
    | some f => f.code
    | none => "standard"

/-- Concrete candidate for the golden interpretation example: player
name SMITH, placements Chest and Back. -/
def itemC1 : ItemCandidate :=
  { lineItemId := 1001, productId := 2002, variantId := 3003, sku := "JER-1"
    title := "Team Jersey", quantity := 1
    properties := [("Player Name", "SMITH"), ("Placement", "Chest, Back")] }

/-- Concrete queue entry used to exhibit the clock dependence of the
production record. -/
def qC2 : QueueEntry :=
  { shopDomain := "shop-a.example", orderId := "1", orderNumber := "#1001"
    orderData := { customer := { email := "a@example.com", name := "Ann Ax" }
                   createdAt := "2024-01-01T00:00:00Z" }
    items := [], status := "pending", processedAt := none, error := none
    createdAt := "2024-01-01T00:00:00Z" }

/-- Concrete catalog whose second font has an empty display label,
separating the code's font resolution from the claim's wording. -/
def settingsC4 : GlobalSettings :=
  { shopDomain := "shop-b.example"
    textOptions := []
    placements :=
      [ { id := 1, name := "Chest", code := "chest", price := 5
          coordinates := { x := 360, y := 250, maxWidth := 200, maxHeight := 60, rotation := none } } ]
    fonts :=
      [ { id := 1, name := "Alpha", code := "codeA", price := 0, fontFile := "A", displayName := "Label A" }
      , { id := 2, name := "Blank", code := "codeB", price := 0, fontFile := "B", displayName := "" } ] }

/-- Concrete candidate whose `Font Style` property is present but empty. -/
def itemC4 : ItemCandidate :=
  { lineItemId := 11, productId := 22, variantId := 33, sku := "SKU-4"
    title := "Tee", quantity := 2
    properties := [("Player Name", "SMITH"), ("Placement", "Chest"), ("Font Style", "")] }

/-- The single instruction the code emits for `itemC4` against
`settingsC4`. -/
def instrC4 : Customization :=
  { type := "text", value := "SMITH", placement := "chest", font := "codeA", color := "white"
    coordinates := { x := 360, y := 250, maxWidth := 200, maxHeight := 60, rotation := none } }

/-- Concrete candidate with customization text but no `Placement` key. -/
def itemC6 : ItemCandidate :=
  { lineItemId := 61, productId := 62, variantId := 63, sku := "SKU-6"
    title := "Hoodie", quantity := 1
    properties := [("Player Name", "SMITH")] }

/-- Concrete environment whose settings lookup rejects. -/
def envC7 : CompileEnv :=
  { settingsResult := Except.error "boom"
    saveCompleted := Except.ok ()
    saveError := Except.ok ()
    now := "2024-02-02T00:00:00Z" }

/-- Concrete queue entry processed under `envC7`. -/
def qC7 : QueueEntry :=
  { shopDomain := "shop-c.example", orderId := "7", orderNumber := "#1007"
    orderData := { customer := { email := "c@example.com", name := "Cy Co" }
                   createdAt := "2024-02-01T00:00:00Z" }
    items := [itemC1], status := "pending", processedAt := none, error := none
    createdAt := "2024-02-01T00:00:00Z" }

/-- Concrete environment whose settings lookup succeeds but finds no
catalog document. -/
def envC9 : CompileEnv :=
  { settingsResult := Except.ok none
    saveCompleted := Except.ok ()
    saveError := Except.ok ()
    now := "2024-03-03T00:00:00Z" }

/-- Concrete queue entry processed under `envC9`: its only candidate
requests a valid-looking placement, which cannot resolve without a
catalog. -/
def qC9 : QueueEntry :=
  { shopDomain := "shop-d.example", orderId := "9", orderNumber := "#1009"
    orderData := { customer := { email := "d@example.com", name := "Di Du" }
                   createdAt := "2024-03-01T00:00:00Z" }
    items := [itemC1], status := "pending", processedAt := none, error := none
    createdAt := "2024-03-01T00:00:00Z" }

/-- Concrete order carrying one customized line item, used to build a
reachable queue entry. -/
def orderC10 : Order :=
  { id := 7001, name := "#2001", email := "e@example.com"
    customer_first := some "Jo", customer_last := none
    created_at := "2024-04-01T00:00:00Z"
    line_items :=
      [ { id := 1, product_id := 2, variant_id := 3, sku := "SKU-10", title := "Jersey", quantity := 1
          properties := [("Player Name", "JO"), ("Placement", "Chest")] } ] }

section Helpers

variable {α β : Type}

/-- A left fold that appends zero or one element per input equals an
initial segment followed by a `filterMap`. -/
theorem foldl_push_eq_filterMap (h : List β → α → List β) (f : α → Option β)
    (hstep : ∀ acc x, h acc x = acc ++ (f x).toList) (l : List α) (acc : List β) :
    List.foldl h acc l = acc ++ l.filterMap f := by
  induction l generalizing acc with
  | nil => simp
  | cons x xs ih =>
    rw [List.foldl_cons, hstep]
    cases hfx : f x with
    | none => simp [List.filterMap_cons, hfx, ih]
    | some b => simp [List.filterMap_cons, hfx, ih]

end Helpers

/-- The candidate guard of the webhook loop is redundant in its length
test: a trigger key can only be non-empty when the property list is
non-empty. -/
theorem length_and_trigger (item : LineItem) :
    (item.properties.length > 0 && hasCustomizationTrigger item.properties) =
      hasCustomizationTrigger item.properties := by
  cases hp : item.properties with
  | nil => simp [hasCustomizationTrigger, getProp, truthy]
  | cons a l => simp

/-- Characterization of the webhook extraction loop as a `filterMap`:
a line item contributes exactly when a trigger key holds a non-empty
value, and contributes its candidate record. -/
theorem extractCandidates_eq_filterMap (lineItems : List LineItem) :
    extractCandidates lineItems =
      lineItems.filterMap (fun item =>
        if hasCustomizationTrigger item.properties then some (mkCandidate item) else none) := by
  unfold extractCandidates
  rw [foldl_push_eq_filterMap _
        (fun item => if hasCustomizationTrigger item.properties then some (mkCandidate item) else none)
        ?hstep lineItems []]
  · simp
  case hstep =>
    intro acc item
    rw [length_and_trigger]
    cases htr : hasCustomizationTrigger item.properties <;> simp [htr]

/-- Characterization of the per-item interpretation loop: when the
chosen text is empty the result is empty, and otherwise each requested
placement name contributes exactly the instruction of the catalog
placement of that exact name, unmatched names contributing nothing. -/
theorem interpret_eq_filterMap (settings : Option GlobalSettings) (item : ItemCandidate) :
    interpretCustomizations settings item =
      (if customTextOf item.properties = "" then []
       else (placementNamesOf item.properties).filterMap
         (fun n => (findPlacement settings n).map (fun p =>
            { type := "text"
              value := jsToUpper (customTextOf item.properties)
              placement := p.code
              font := fontCodeOf (resolveFont settings item.properties)
              color := "white"
              coordinates := p.coordinates }))) := by
  by_cases ht : customTextOf item.properties = ""
  · simp [interpretCustomizations, ht]
  · by_cases hpl : placementNamesOf item.properties = []
    · simp [interpretCustomizations, ht, hpl]
    · rw [if_neg ht]
      show interpretCustomizations settings item = _
      unfold interpretCustomizations
      rw [if_pos (And.intro ht hpl)]
      rw [foldl_push_eq_filterMap _
            (fun n => (findPlacement settings n).map (fun p =>
              { type := "text"
                value := jsToUpper (customTextOf item.properties)
                placement := p.code
                font := fontCodeOf (resolveFont settings item.properties)
                color := "white"
                coordinates := p.coordinates }))
            ?hstep (placementNamesOf item.properties) []]
      · simp
      case hstep =>
        intro acc n
        cases hf : findPlacement settings n <;> simp [hf]

/-- Characterization of the production-record assembly: a candidate
contributes one line item carrying all its resolved instructions
exactly when its interpretation is non-empty. -/
theorem buildProductionData_line_items (settings : Option GlobalSettings)
    (q : QueueEntry) (now : String) :
    (buildProductionData settings q now).line_items =
      q.items.filterMap (fun item =>
        if interpretCustomizations settings item = [] then none
        else some { id := item.lineItemId
                    product_id := item.productId
                    variant_id := item.variantId
                    sku := item.sku
                    title := item.title
                    quantity := item.quantity
                    customizations := interpretCustomizations settings item }) := by
  unfold buildProductionData
  rw [foldl_push_eq_filterMap _
        (fun item =>
          if interpretCustomizations settings item = [] then none
          else some { id := item.lineItemId
                      product_id := item.productId
                      variant_id := item.variantId
                      sku := item.sku
                      title := item.title
                      quantity := item.quantity
                      customizations := interpretCustomizations settings item })
        ?hstep q.items []]
  · simp
  case hstep =>
    intro acc item
    by_cases hc : interpretCustomizations settings item = []
    · simp [hc]
    · simp [hc, List.length_pos.mpr hc]

/-- Claim C1: for a candidate whose property map is
Player Name = SMITH and Placement = Chest, Back, interpreted against the
default catalog, interpretation produces exactly two instructions in
placement-request order: text SMITH on chest (font standard, color
white, geometry 360/250/200/60) and text SMITH on back (font standard,
color white, geometry 360/300/280/100). -/
theorem c1_interpret_smith_chest_back (shop : String) :
    interpretCustomizations (some (defaultSettings shop)) itemC1 =
      [ { type := "text", value := "SMITH", placement := "chest", font := "standard", color := "white"
          coordinates := { x := 360, y := 250, maxWidth := 200, maxHeight := 60, rotation := none } }
      , { type := "text", value := "SMITH", placement := "back", font := "standard", color := "white"
          coordinates := { x := 360, y := 300, maxWidth := 280, maxHeight := 100, rotation := none } } ] :=
  rfl

/-- Claim C2, counterexample: compiling the same queue entry against the
same catalog at two different clock readings yields different production
records, because `created_at` is read from the clock rather than from
the two inputs. -/
theorem c2_counterexample :
    buildProductionData none qC2 "2024-01-01T00:00:00.000Z" ≠
      buildProductionData none qC2 "2024-01-01T00:00:01.000Z" := by
  decide

/-- Claim C2 as amended: compilation is a deterministic function of the
intake record, the catalog, and the clock reading taken during the run;
every field except `created_at` depends only on the intake record and
the catalog, and `created_at` is exactly the clock reading. -/
theorem c2_deterministic_given_clock (settings : Option GlobalSettings) (q : QueueEntry)
    (nowA nowB : String) :
    (buildProductionData settings q nowA).order_id = (buildProductionData settings q nowB).order_id ∧
    (buildProductionData settings q nowA).order_number = (buildProductionData settings q nowB).order_number ∧
    (buildProductionData settings q nowA).customer = (buildProductionData settings q nowB).customer ∧
    (buildProductionData settings q nowA).line_items = (buildProductionData settings q nowB).line_items ∧
    (buildProductionData settings q nowA).created_at = nowA :=
  ⟨rfl, rfl, rfl, rfl, rfl⟩

/-- Claim C3: a requested placement name with no exactly-equal catalog
placement contributes no instruction while matched names in the same
request still contribute theirs, in request order (the interpretation is
a `filterMap` of the placement lookup over the requested names); and a
candidate whose interpretation is empty is omitted entirely from the
production record's line items. -/
theorem c3_skip_unmatched_and_omit_empty (settings : Option GlobalSettings)
    (item : ItemCandidate) (q : QueueEntry) (now : String) :
    (interpretCustomizations settings item =
      (if customTextOf item.properties = "" then []
       else (placementNamesOf item.properties).filterMap
         (fun n => (findPlacement settings n).map (fun p =>
            { type := "text"
              value := jsToUpper (customTextOf item.properties)
              placement := p.code
              font := fontCodeOf (resolveFont settings item.properties)
              color := "white"
              coordinates := p.coordinates })))) ∧
    (buildProductionData settings q now).line_items =
      q.items.filterMap (fun it =>
        if interpretCustomizations settings it = [] then none
        else some { id := it.lineItemId
                    product_id := it.productId
                    variant_id := it.variantId
                    sku := it.sku
                    title := it.title
                    quantity := it.quantity
                    customizations := interpretCustomizations settings it }) :=
  ⟨interpret_eq_filterMap settings item, buildProductionData_line_items settings q now⟩

/-- Claim C5: the per-item property map is last-write-wins (a later
entry for a key overrides earlier ones and leaves other keys untouched),
an item is a candidate exactly when the map holds a non-empty value
under one of the four trigger keys, and extraction is an
order-preserving `filterMap` whose candidates carry the line item id,
product id, variant id, sku, title, quantity and the full property map. -/
theorem c5_candidate_extraction (ps : Props) (k v kq : String) (items : List LineItem) :
    (getProp (ps ++ [(k, v)]) kq = if k = kq then some v else getProp ps kq) ∧
    extractCandidates items =
      items.filterMap (fun item =>
        if hasCustomizationTrigger item.properties then
          some { lineItemId := item.id
                 productId := item.product_id
                 variantId := item.variant_id
                 sku := item.sku
                 title := item.title
                 quantity := item.quantity
                 properties := item.properties }
        else none) := by
  constructor
  · by_cases h : k = kq <;> simp [getProp, List.foldl_append, h]
  · exact extractCandidates_eq_filterMap items

/-- Claim C6: a candidate with no `Placement` property (or an empty one)
interprets to the empty instruction list, and so does a candidate none
of whose four text keys is non-empty. -/
theorem c6_no_placement_or_no_text (settings : Option GlobalSettings) (item : ItemCandidate) :
    ((getProp item.properties "Placement" = none ∨ getProp item.properties "Placement" = some "") →
      interpretCustomizations settings item = []) ∧
    (customTextOf item.properties = "" → interpretCustomizations settings item = []) := by
  constructor
  · intro h
    have hpl : placementNamesOf item.properties = [] := by
      unfold placementNamesOf
      rcases h with h | h <;> simp [h]
    simp [interpretCustomizations, hpl]
  · intro h
    simp [interpretCustomizations, h]

/-- Claim C6, witness: a concrete candidate with text but no placement
key interprets to the empty list under the default catalog. -/
theorem c6_witness :
    interpretCustomizations (some (defaultSettings "shop-w.example")) itemC6 = [] :=
  (c6_no_placement_or_no_text (some (defaultSettings "shop-w.example")) itemC6).1 (Or.inl rfl)

/-- Claim C4, counterexample: with a catalog whose second font has an
empty display label and a candidate whose `Font Style` property is
present but empty, the code emits the first font's code (the empty
property is falsy and is replaced by the default label), while the
claim's rule — defaulting only when the key is absent — selects the
second font. -/
theorem c4_counterexample :
    (interpretCustomizations (some settingsC4) itemC4).map (fun c => c.font) = ["codeA"] ∧
    claimedFontCode settingsC4 itemC4.properties = "codeB" ∧
    ("codeA" : String) ≠ "codeB" := by
  refine ⟨rfl, rfl, ?_⟩
  decide

/-- Claim C4 as amended: every emitted instruction carries the font code
obtained by matching the catalog fonts' display labels against
`properties[Font Style]` — which defaults to the standard label when the
key is absent or its value empty —, falling back to the catalog's first
font when no label matches; the emitted code is the resolved font's
code, or the literal `standard` when that code is empty or the catalog
has zero fonts. -/
theorem c4_font_resolution (s : GlobalSettings) (item : ItemCandidate) (instr : Customization)
    (h : instr ∈ interpretCustomizations (some s) item) :
    instr.font =
      (match s.fonts.find? (fun f => f.displayName == fontDisplayOf item.properties) with
       | some f => if f.code == "" then "standard" else f.code
       | none =>
         match s.fonts.head? with
         | some f => if f.code == "" then "standard" else f.code
         | none => "standard") ∧
    fontDisplayOf item.properties =
      (match getProp item.properties "Font Style" with
       | some v => if v == "" then "Standard Font (Free)" else v
       | none => "Standard Font (Free)") := by
  refine ⟨?_, rfl⟩
  rw [interpret_eq_filterMap] at h
  by_cases ht : customTextOf item.properties = ""
  · rw [if_pos ht] at h
    exact absurd h (List.not_mem_nil instr)
  · rw [if_neg ht] at h
    rcases List.mem_filterMap.mp h with ⟨n, hn, hf⟩
    rcases hp : findPlacement (some s) n with _ | p
    · rw [hp] at hf
      exact absurd hf (by simp)
    · rw [hp, Option.map_some'] at hf
      injection hf with hf
      rw [← hf]
      show fontCodeOf (resolveFont (some s) item.properties) = _
      simp only [resolveFont]
      cases hfind : s.fonts.find? (fun f => f.displayName == fontDisplayOf item.properties) with
      | some f => simp [fontCodeOf]
      | none =>
        cases hhead : s.fonts.head? with
        | some f => simp [fontCodeOf, hhead]
        | none => simp [fontCodeOf, hhead]

/-- Claim C4, witness: the amended font rule evaluated at the concrete
catalog and candidate of the counterexample, for the one instruction the
code emits. -/
theorem c4_witness :
    instrC4.font =
      (match settingsC4.fonts.find? (fun f => f.displayName == fontDisplayOf itemC4.properties) with
       | some f => if f.code == "" then "standard" else f.code
       | none =>
         match settingsC4.fonts.head? with
         | some f => if f.code == "" then "standard" else f.code
         | none => "standard") :=
  (c4_font_resolution settingsC4 itemC4 instrC4 (by decide)).1

/-- Claim C7: when the compilation step fails — the settings lookup
rejects, or the completion save rejects — and the error-status save
succeeds, `generateProductionFile` returns normally with the entry in
status `error` carrying the exception message, and the webhook handler
still acknowledges the event with status 200. -/
theorem c7_compile_failure_caught (env : CompileEnv) (q : QueueEntry) (e : String)
    (hsave : env.saveError = Except.ok ())
    (hfail : env.settingsResult = Except.error e ∨
      (∃ s, env.settingsResult = Except.ok s ∧ env.saveCompleted = Except.error e)) :
    (∃ qq, generateProductionFile env q = Except.ok (qq, none) ∧
      qq.status = "error" ∧ qq.error = some e) ∧
    (∀ shop order, (processOrderWebhook env shop order).1 = 200) := by
  have hgen : ∀ qe : QueueEntry, ∃ qq, generateProductionFile env qe = Except.ok (qq, none) ∧
      qq.status = "error" ∧ qq.error = some e := by
    intro qe
    rcases hfail with h | ⟨s, hok, hsc⟩
    · refine ⟨{ qe with status := "error", error := some e }, ?_, rfl, rfl⟩
      unfold generateProductionFile catchSave
      rw [h, hsave]
    · refine ⟨{ qe with status := "error", processedAt := some env.now, error := some e }, ?_, rfl, rfl⟩
      unfold generateProductionFile catchSave
      rw [hok, hsc, hsave]
  refine ⟨hgen q, ?_⟩
  intro shop order
  simp only [processOrderWebhook]
  by_cases hc : (extractCandidates order.line_items).length > 0
  · rw [if_pos hc]
    obtain ⟨qq, hq, -, -⟩ := hgen (enqueueEntry shop order env.now)
    rw [hq]
  · rw [if_neg hc]

/-- Claim C7, witness: under a concrete environment whose settings
lookup rejects with message boom and whose error save succeeds, the
concrete queue entry ends in status `error` with that message and the
call returns normally. -/
theorem c7_witness :
    ∃ qq, generateProductionFile envC7 qC7 = Except.ok (qq, none) ∧
      qq.status = "error" ∧ qq.error = some "boom" :=
  (c7_compile_failure_caught envC7 qC7 "boom" rfl (Or.inl rfl)).1

/-- Claim C8: for a shop with no stored catalog, resolution creates,
persists and returns exactly the documented default catalog — three text
options, four placements with the stated codes, prices and geometry,
four fonts with the stated codes, prices and display labels — and a
second resolution for the same shop returns an identical catalog with
the store unchanged. -/
theorem c8_default_catalog (shop : String) :
    resolveSettings shop none = (defaultSettings shop, some (defaultSettings shop)) ∧
    resolveSettings shop (some (defaultSettings shop)) =
      (defaultSettings shop, some (defaultSettings shop)) ∧
    defaultSettings shop =
      { shopDomain := shop
        textOptions :=
          [ { id := 1, name := "Player Name", maxLength := 15, basePrice := 0 }
          , { id := 2, name := "Custom Text", maxLength := 25, basePrice := 0 }
          , { id := 3, name := "Jersey Number", maxLength := 3, basePrice := 0 } ]
        placements :=
          [ { id := 1, name := "Chest", code := "chest", price := 5
              coordinates := { x := 360, y := 250, maxWidth := 200, maxHeight := 60, rotation := none } }
          , { id := 2, name := "Back", code := "back", price := 5
              coordinates := { x := 360, y := 300, maxWidth := 280, maxHeight := 100, rotation := none } }
          , { id := 3, name := "Left Sleeve", code := "left_sleeve", price := 7
              coordinates := { x := 150, y := 320, maxWidth := 80, maxHeight := 40, rotation := some (-90) } }
          , { id := 4, name := "Right Sleeve", code := "right_sleeve", price := 7
              coordinates := { x := 150, y := 320, maxWidth := 80, maxHeight := 40, rotation := some (-90) } } ]
        fonts :=
          [ { id := 1, name := "Standard", code := "standard", price := 0, fontFile := "Arial", displayName := "Standard Font (Free)" }
          , { id := 2, name := "Varsity", code := "varsity", price := 3, fontFile := "Impact", displayName := "Varsity Style (+$3)" }
          , { id := 3, name := "Script", code := "script", price := 5, fontFile := "BrushScriptMT", displayName := "Script Style (+$5)" }
          , { id := 4, name := "Modern", code := "modern", price := 3, fontFile := "HelveticaNeue-Light", displayName := "Modern Style (+$3)" } ] } :=
  ⟨rfl, rfl, rfl⟩

/-- Claim C9: when the settings lookup finds no catalog document,
compilation neither creates one nor fails: every placement lookup
misses, the production record carries zero line items, and the queue
entry is still marked completed with a processed timestamp. -/
theorem c9_compile_without_catalog (env : CompileEnv) (q : QueueEntry)
    (hset : env.settingsResult = Except.ok none)
    (hsave : env.saveCompleted = Except.ok ()) :
    (∀ name, findPlacement none name = none) ∧
    (buildProductionData none q env.now).line_items = [] ∧
    generateProductionFile env q =
      Except.ok ({ q with status := "completed", processedAt := some env.now },
        some (buildProductionData none q env.now)) := by
  have hempty : ∀ item, interpretCustomizations none item = [] := by
    intro item
    rw [interpret_eq_filterMap]
    split
    · rfl
    · simp [findPlacement]
  refine ⟨fun name => rfl, ?_, ?_⟩
  · rw [buildProductionData_line_items]
    simp [hempty]
  · unfold generateProductionFile
    rw [hset, hsave]

/-- Claim C9, witness: the concrete no-catalog environment and entry
evaluated through the theorem: zero line items and a completed entry. -/
theorem c9_witness :
    (buildProductionData none qC9 envC9.now).line_items = [] ∧
    generateProductionFile envC9 qC9 =
      Except.ok ({ qC9 with status := "completed", processedAt := some envC9.now },
        some (buildProductionData none qC9 envC9.now)) :=
  ⟨(c9_compile_without_catalog envC9 qC9 rfl rfl).2.1,
   (c9_compile_without_catalog envC9 qC9 rfl rfl).2.2⟩

/-- Every entry state a completed run of `generateProductionFile` leaves
behind is either completed or error. -/
theorem generateProductionFile_ok_status (env : CompileEnv) (q qq : QueueEntry)
    (pdOpt : Option ProductionData)
    (h : generateProductionFile env q = Except.ok (qq, pdOpt)) :
    qq.status = "completed" ∨ qq.status = "error" := by
  unfold generateProductionFile catchSave at h
  split at h
  · split at h
    · simp only [Except.ok.injEq, Prod.mk.injEq] at h
      obtain ⟨h1, -⟩ := h
      right
      rw [← h1]
    · exact Except.noConfusion h
  · split at h
    · split at h
      · simp only [Except.ok.injEq, Prod.mk.injEq] at h
        obtain ⟨h1, -⟩ := h
        right
        rw [← h1]
      · exact Except.noConfusion h
    · simp only [Except.ok.injEq, Prod.mk.injEq] at h
      obtain ⟨h1, -⟩ := h
      left
      rw [← h1]

/-- Claim C10: the schema's status enum admits `processing`, but every
queue entry reachable through the implementation's operations has status
pending, completed or error — never `processing` — and
`generateProductionFile` is insensitive to the entry's prior status, so
no exclusive pending-to-processing claim precedes compilation. -/
theorem c10_status_invariant :
    ("processing" ∈ statusEnumValues) ∧
    (∀ q, ReachableEntry q →
      (q.status = "pending" ∨ q.status = "completed" ∨ q.status = "error") ∧
        q.status ≠ "processing") ∧
    (∀ (env : CompileEnv) (q : QueueEntry) (sA sB : String),
      generateProductionFile env { q with status := sA } =
        generateProductionFile env { q with status := sB }) := by
  refine ⟨by decide, ?_, ?_⟩
  · intro q hq
    induction hq with
    | created shop order now hcand =>
      refine ⟨Or.inl rfl, ?_⟩
      intro hcontra
      have hps : ("pending" : String) = "processing" := hcontra
      exact absurd hps (by decide)
    | processed env q qq pdOpt hq hgen ih =>
      rcases generateProductionFile_ok_status env q qq pdOpt hgen with h | h
      · exact ⟨Or.inr (Or.inl h), by rw [h]; decide⟩
      · exact ⟨Or.inr (Or.inr h), by rw [h]; decide⟩
  · intro env q sA sB
    rcases env with ⟨sr, sc, se, now⟩
    rcases sr with e | settings <;> rcases sc with e2 | u <;> rcases se with e3 | u2 <;> rfl

/-- Claim C10, witness: a concrete entry created by the webhook handler
is reachable and its status is not `processing`. -/
theorem c10_witness :
    ((enqueueEntry "shop-e.example" orderC10 "2024-04-02T00:00:00Z").status = "pending" ∨
      (enqueueEntry "shop-e.example" orderC10 "2024-04-02T00:00:00Z").status = "completed" ∨
      (enqueueEntry "shop-e.example" orderC10 "2024-04-02T00:00:00Z").status = "error") ∧
    (enqueueEntry "shop-e.example" orderC10 "2024-04-02T00:00:00Z").status ≠ "processing" :=
  c10_status_invariant.2.1 _
    (ReachableEntry.created "shop-e.example" orderC10 "2024-04-02T00:00:00Z" (by decide))

end ShopifyCustomizer
